import Mathlib

/-!
Shallow embedding of the quickflix-backend HTTP scraping service
(src/index.js) and verification of the behavioral claims made by its
specification.

The embedding models:
  * JavaScript value semantics used by the handlers (truthiness of strings,
    arrays and `undefined`, `parseInt`, `parseFloat`, `String.prototype.includes`,
    template-literal stringification of `undefined`);
  * the catalog extraction loop (src/index.js lines 65-97);
  * the detail extraction (lines 125-178) including the iframe provider scan,
    the inline-script video-URL regex scan, and `extractProviderName`;
  * the extract-link handler (lines 189-230);
  * the NodeCache store with its 3600 second default TTL (line 13);
  * the three data route handlers as state transformers over an application
    state holding the cache and a count of rendering-gateway invocations;
  * `initBrowser` (lines 21-32) as an interleaved two-caller step machine,
    with one atomic step per synchronous block between `await` points.

The headless browser and the target site are modelled as an environment
value: either a navigation failure or the rendered document as the cheerio
selectors of the handler read it (one record field per selector result).
-/

/-! ## JavaScript primitives -/

/-- Test that the character list `s` begins with `p`. -/
def charsStartWith : List Char → List Char → Bool
  | [], _ => true
  | _ :: _, [] => false
  | p :: ps, c :: cs => p == c && charsStartWith ps cs

/-- Test that `pat` occurs as a contiguous run inside the second list. -/
def charsContain (pat : List Char) : List Char → Bool
  | [] => charsStartWith pat []
  | s@(_ :: cs) => charsStartWith pat s || charsContain pat cs

/-- JavaScript `s.includes(pat)` (case sensitive substring test). -/
def strIncludes (s pat : String) : Bool :=
  charsContain pat.toList s.toList

/-- JavaScript `s.startsWith(pat)`. -/
def strStartsWith (s pat : String) : Bool :=
  charsStartWith pat.toList s.toList

/-- JavaScript `a || b` where `a` is a string: the empty string is falsy. -/
def jsOrStr (a b : String) : String := if a = "" then b else a

/-- JavaScript `a || b` where `a` is an array: a JavaScript array is truthy
even when empty, so the right operand is never produced.  This embeds the
expression `$el.find('.genre').map(...).get() || ['Unknown']` at
src/index.js line 85, whose fallback is consequently dead. -/
def jsOrArray (a _dead : List String) : List String := a

/-- JavaScript `a || b` where `a` is `attr(...)`: `undefined` and `""` are
falsy and fall through to `b`. -/
def jsOrOptStr (a b : Option String) : Option String :=
  match a with
  | some s => if s = "" then b else some s
  | none => b

/-- JavaScript `a || d` where `a` is a number: `NaN` (here `none`) and `0`
are falsy.  Embeds `parseInt(...) || 1` at src/index.js line 94. -/
def jsOrInt (a : Option Int) (d : Int) : Int :=
  match a with
  | some n => if n = 0 then d else n
  | none => d

/-- JavaScript `parseInt(s)` with the default radix on ordinary decimal
input: skip leading whitespace, an optional sign, then the leading run of
decimal digits; no digits gives `NaN`, modelled as `none`.  (The hexadecimal
`0x` form of `parseInt` is not modelled; no scraped year text uses it.) -/
def jsParseIntOpt (s : String) : Option Int :=
  let cs := s.toList.dropWhile (·.isWhitespace)
  let signed : Bool × List Char :=
    match cs with
    | '-' :: r => (true, r)
    | '+' :: r => (false, r)
    | _ => (false, cs)
  let ds := signed.2.takeWhile (·.isDigit)
  if ds.isEmpty then none
  else
    let n : Nat := ds.foldl (fun a c => a * 10 + (c.toNat - 48)) 0
    some (if signed.1 then -(n : Int) else (n : Int))

/-- JavaScript `parseFloat(s)` on sign/digits/point/digits input, `NaN` as
`none`.  (Exponent and `Infinity` forms are not modelled; no claim depends
on the numeric value of a rating.) -/
def jsParseFloatOpt (s : String) : Option Rat :=
  let cs := s.toList.dropWhile (·.isWhitespace)
  let signed : Bool × List Char :=
    match cs with
    | '-' :: r => (true, r)
    | '+' :: r => (false, r)
    | _ => (false, cs)
  let intDs := signed.2.takeWhile (·.isDigit)
  let rest := signed.2.dropWhile (·.isDigit)
  let fracDs : List Char :=
    match rest with
    | '.' :: r => r.takeWhile (·.isDigit)
    | _ => []
  if intDs.isEmpty && fracDs.isEmpty then none
  else
    let ip : Nat := intDs.foldl (fun a c => a * 10 + (c.toNat - 48)) 0
    let fp : Nat := fracDs.foldl (fun a c => a * 10 + (c.toNat - 48)) 0
    let q : Rat := (ip : Rat) + (fp : Rat) / ((10 : Rat) ^ fracDs.length)
    some (if signed.1 then -q else q)

/-! ## Catalog extraction (src/index.js lines 65-97) -/

/-- One element matched by `$('.movie-item, .series-item, .content-item')`,
described by the results of the per-item selector reads in the loop body
(lines 67-73).  `Option String` fields model `attr(...)`, which is
`undefined` when the attribute or element is missing. -/
structure ContainerEl where
  /-- Result of the title selector chain, trimmed. -/
  titleText : String
  /-- Result of the img src attribute read. -/
  posterSrc : Option String
  /-- Result of the img data-src attribute read. -/
  posterDataSrc : Option String
  /-- Result of the anchor href attribute read. -/
  linkHref : Option String
  /-- Result of the year selector chain, trimmed. -/
  yearText : String
  /-- Result of the rating selector chain, trimmed. -/
  ratingText : String
  /-- Result of the series-item class test. -/
  isSeriesItem : Bool
  /-- Result of the synopsis selector chain, trimmed. -/
  synopsisText : String
  /-- Results of the genre selector map, trimmed texts. -/
  genreTexts : List String
deriving DecidableEq

/-- One catalog item as pushed at src/index.js lines 76-86.  `year` is
`Option Int` with `none` standing for JavaScript `NaN` (which serializes to
JSON `null`); `rating` likewise models `null`/`NaN` as `none`. -/
structure CatalogItem where
  id : String
  title : String
  type : String
  year : Option Int
  poster : String
  link : String
  rating : Option Rat
  synopsis : String
  genres : List String
deriving DecidableEq

/-- Poster URL resolution (lines 81 and 172): when the scraped poster URL
does not start with http it is prefixed with the fixed site origin; an
undefined poster is falsy under the optional-chaining test, and the template
literal then stringifies `undefined` as the text `undefined`. -/
def resolvePoster (p : Option String) : String :=
  match p with
  | some s => if strStartsWith s "http" then s else "https://filmax.to" ++ s
  | none => "https://filmax.to" ++ "undefined"

/-- The object literal pushed for one kept container element (lines 76-86);
`link` is the raw `href` already known truthy from the `if (title && link)`
guard. -/
def mkCatalogItem (now : Nat) (cy : Int) (i : Nat) (el : ContainerEl)
    (link : String) : CatalogItem :=
  let ty : String := if el.isSeriesItem then "series" else "movie"
  { id := ty ++ "_" ++ toString i ++ "_" ++ toString now
    title := el.titleText
    type := ty
    year := if el.yearText = "" then some cy else jsParseIntOpt el.yearText
    poster := resolvePoster (jsOrOptStr el.posterSrc el.posterDataSrc)
    link := if strStartsWith link "http" then link else "https://filmax.to" ++ link
    rating := if el.ratingText = "" then none else jsParseFloatOpt el.ratingText
    synopsis := jsOrStr el.synopsisText "No description available"
    genres := jsOrArray el.genreTexts ["Unknown"] }

/-- The `.each` loop (lines 66-88): `i` is the index over all containers,
and an item is pushed only when `title && link` is truthy, i.e. the trimmed
title is non-empty and the `href` is defined and non-empty. -/
def catalogItemsAux (now : Nat) (cy : Int) : Nat → List ContainerEl → List CatalogItem
  | _, [] => []
  | i, el :: rest =>
    match el.linkHref with
    | some l =>
      if el.titleText != "" && l != "" then
        mkCatalogItem now cy i el l :: catalogItemsAux now cy (i + 1) rest
      else
        catalogItemsAux now cy (i + 1) rest
    | none => catalogItemsAux now cy (i + 1) rest

/-- All items produced from the container list of one rendered page. -/
def catalogItems (now : Nat) (cy : Int) (els : List ContainerEl) : List CatalogItem :=
  catalogItemsAux now cy 0 els

/-! ## Detail extraction (src/index.js lines 125-178) -/

/-- One entry of the `links` array of a content-detail response
(lines 137-145 and 155-163). -/
structure VideoLink where
  id : String
  provider : String
  quality : String
  format : String
  size : String
  url : String
  type : String
deriving DecidableEq

/-- Provider label from the embed URL, by ordered substring checks with
first match winning (src/index.js lines 232-239). -/
def extractProviderName (url : String) : String :=
  if strIncludes url "streamtape" then "StreamTape"
  else if strIncludes url "vidplay" then "VidPlay"
  else if strIncludes url "doodstream" then "DoodStream"
  else if strIncludes url "mixdrop" then "MixDrop"
  else if strIncludes url "upstream" then "UpStream"
  else "Unknown Provider"

/-- The iframe guard at src/index.js line 136: the source URL must contain
one of exactly four provider substrings (streamtape, vidplay, doodstream,
mixdrop); the upstream substring is not tested here. -/
def iframeSrcSelected (src : String) : Bool :=
  strIncludes src "streamtape" || strIncludes src "vidplay" ||
  strIncludes src "doodstream" || strIncludes src "mixdrop"

/-- The iframe scan loop (lines 134-147): each iframe src attribute in
document order, with the loop index over all iframes used in the id; only
truthy sources passing the guard are pushed. -/
def iframeLinks (srcs : List (Option String)) : List VideoLink :=
  srcs.enum.filterMap (fun p =>
    match p.2 with
    | some src =>
      if (src != "") && iframeSrcSelected src then
        some { id := "link_" ++ toString p.1, provider := extractProviderName src,
               quality := "HD", format := "MP4", size := "Unknown",
               url := src, type := "iframe" }
      else none
    | none => none)

/-! ### The inline-script video URL regex scan (lines 149-165)

The regex matches an http or https scheme, a non-empty greedy run of
characters excluding whitespace and both quote characters, then a dot and
one of the extensions mp4, m3u8, mkv, avi, case-insensitively.  The scanner
below reproduces the backtracking semantics: at each starting position, the
greedy run gives back just enough for the extension alternation to match,
so the match ends at the last possible extension occurrence of the token;
matching is non-overlapping left to right. -/

/-- ASCII case-insensitive character comparison, as regex flag i uses. -/
def ciEq (a c : Char) : Bool := a.toLower == c.toLower

/-- Consume a case-insensitive literal pattern, returning the consumed
original characters and the remaining input. -/
def ciConsume : List Char → List Char → Option (List Char × List Char)
  | [], s => some ([], s)
  | _ :: _, [] => none
  | p :: ps, c :: cs =>
    if ciEq p c then (ciConsume ps cs).map (fun t => (c :: t.1, t.2)) else none

/-- Match the scheme part http:// or https:// (the s is optional). -/
def matchScheme (s : List Char) : Option (List Char × List Char) :=
  match ciConsume "http".toList s with
  | none => none
  | some (t1, r1) =>
    match r1 with
    | c :: r2 =>
      if ciEq 's' c then
        match ciConsume "://".toList r2 with
        | some (t2, r3) => some (t1 ++ c :: t2, r3)
        | none =>
          match ciConsume "://".toList r1 with
          | some (t2, r3) => some (t1 ++ t2, r3)
          | none => none
      else
        match ciConsume "://".toList r1 with
        | some (t2, r3) => some (t1 ++ t2, r3)
        | none => none
    | [] => none

/-- A character the greedy character class of the regex accepts: anything
but whitespace and the two quote characters (the double quote, code 34,
and the single quote, code 39). -/
def isUrlChar (c : Char) : Bool :=
  !c.isWhitespace && c.toNat != 34 && c.toNat != 39

/-- Try the extension alternation in the order of the regex. -/
def tryExt (s : List Char) : Option (List Char × List Char) :=
  match ciConsume ".mp4".toList s with
  | some r => some r
  | none =>
    match ciConsume ".m3u8".toList s with
    | some r => some r
    | none =>
      match ciConsume ".mkv".toList s with
      | some r => some r
      | none => ciConsume ".avi".toList s

/-- Greedy body followed by the extension: prefers the longest possible
body (extension occurrence nearest the end), requiring at least one body
character.  Returns the matched characters after the scheme and the rest. -/
def grabMatch : List Char → Option (List Char × List Char)
  | [] => none
  | c :: cs =>
    if isUrlChar c then
      match grabMatch cs with
      | some (m, r) => some (c :: m, r)
      | none =>
        match tryExt cs with
        | some (e, r) => some (c :: e, r)
        | none => none
    else none

/-- Left-to-right non-overlapping scan producing every match of the video
URL regex; fuel bounds the recursion and one unit per input character plus
one is always sufficient since every step consumes at least one character. -/
def scanUrls : Nat → List Char → List String
  | 0, _ => []
  | _ + 1, [] => []
  | fuel + 1, s =>
    match s, matchScheme s with
    | _ :: _, some (schemeChars, afterScheme) =>
      match grabMatch afterScheme with
      | some (m, r) => String.mk (schemeChars ++ m) :: scanUrls fuel r
      | none =>
        match s with
        | _ :: rest => scanUrls fuel rest
        | [] => []
    | _ :: rest, none => scanUrls fuel rest
    | [], _ => []

/-- All matches of the video URL regex in a string
(`scripts.match(videoUrlRegex)` at line 151, with null mapped to the empty
list, which makes the `if (matches)` guard and the forEach equivalent to a
map over this list). -/
def videoUrlMatches (s : String) : List String :=
  scanUrls (s.length + 1) s.toList

/-- The direct-link loop (lines 153-165) over the regex matches of the
space-joined inline script bodies. -/
def directLinks (scripts : String) : List VideoLink :=
  (videoUrlMatches scripts).enum.map (fun p =>
    { id := "direct_" ++ toString p.1, provider := "Direct Link",
      quality := "HD",
      format := if strIncludes p.2 ".m3u8" then "HLS" else "MP4",
      size := "Unknown", url := p.2, type := "direct" })

/-- One rendered detail page as the selectors of the content handler read
it (lines 125-131, 134, 149). -/
structure DetailDoc where
  /-- First matching title element text, trimmed. -/
  titleText : String
  /-- First matching synopsis element text, trimmed. -/
  synopsisText : String
  /-- Poster img src attribute. -/
  posterSrc : Option String
  /-- Year selector text, trimmed. -/
  yearText : String
  /-- Duration selector text, trimmed. -/
  durationText : String
  /-- Genre element texts, trimmed. -/
  genreTexts : List String
  /-- Rating selector text, trimmed. -/
  ratingText : String
  /-- The src attribute of every iframe element, in document order. -/
  iframeSrcs : List (Option String)
  /-- The body of every inline script element, in document order. -/
  scriptTexts : List String
deriving DecidableEq

/-- The content-detail result object (lines 169-178). -/
structure ContentResult where
  title : String
  synopsis : String
  poster : String
  year : Option Int
  duration : String
  genres : List String
  rating : Option Rat
  links : List VideoLink
deriving DecidableEq

/-- Pure extraction performed by the content handler on the rendered
document (lines 125-178).  Note the genre default here really does test
emptiness (`genres.length ? genres : ...`), unlike the catalog loop. -/
def extractDetail (doc : DetailDoc) : ContentResult :=
  let links := iframeLinks doc.iframeSrcs ++
               directLinks (String.intercalate " " doc.scriptTexts)
  { title := doc.titleText
    synopsis := jsOrStr doc.synopsisText "No description available"
    poster := resolvePoster doc.posterSrc
    year := if doc.yearText = "" then none else jsParseIntOpt doc.yearText
    duration := doc.durationText
    genres := if doc.genreTexts.isEmpty then ["Unknown"] else doc.genreTexts
    rating := if doc.ratingText = "" then none else jsParseFloatOpt doc.ratingText
    links := links }

/-! ## Base64 cache key for the content route (line 113) -/

/-- UTF-8 bytes of a character, as Buffer.from produces for a string. -/
def utf8Bytes (c : Char) : List Nat :=
  let n := c.toNat
  if n < 128 then [n]
  else if n < 2048 then [192 + n / 64, 128 + n % 64]
  else if n < 65536 then [224 + n / 4096, 128 + n / 64 % 64, 128 + n % 64]
  else [240 + n / 262144, 128 + n / 4096 % 64, 128 + n / 64 % 64, 128 + n % 64]

/-- The standard base64 alphabet indexed 0 to 63. -/
def b64CharOf (n : Nat) : Char :=
  ("ABCDEFGHIJKLMNOPQRSTUVWXYZabcdefghijklmnopqrstuvwxyz0123456789+/".toList).getD n 'A'

/-- Standard base64 of a byte list with padding. -/
def base64Chunks : List Nat → List Char
  | b1 :: b2 :: b3 :: rest =>
    let n := b1 * 65536 + b2 * 256 + b3
    b64CharOf (n / 262144) :: b64CharOf (n / 4096 % 64) ::
      b64CharOf (n / 64 % 64) :: b64CharOf (n % 64) :: base64Chunks rest
  | [b1, b2] =>
    let n := b1 * 256 + b2
    [b64CharOf (n / 1024), b64CharOf (n / 16 % 64), b64CharOf (n % 16 * 4), '=']
  | [b1] => [b64CharOf (b1 / 4), b64CharOf (b1 % 4 * 16), '=', '=']
  | [] => []

/-- Node Buffer.from(s).toString with base64: base64 of the UTF-8 bytes. -/
def base64Encode (s : String) : String :=
  String.mk (base64Chunks (s.toList.foldr (fun c acc => utf8Bytes c ++ acc) []))

example : base64Encode "Man" = "TWFu" := by decide
example : base64Encode "Ma" = "TWE=" := by decide
example : base64Encode "M" = "TQ==" := by decide
example : videoUrlMatches "var x = \"https://cdn.example/video/a.m3u8\";" =
    ["https://cdn.example/video/a.m3u8"] := by decide
example : videoUrlMatches "see http://a.b/c.mp4.mkv tail" = ["http://a.b/c.mp4.mkv"] := by decide
example : videoUrlMatches "no urls here" = [] := by decide

/-! ## The response cache (NodeCache with stdTTL 3600, src/index.js line 13) -/

/-- A cache is a list of entries: key, value, absolute expiry time.  Times
are in seconds. -/
abbrev Cache (alpha : Type) : Type := List (String × alpha × Nat)

/-- NodeCache get: the stored value when the key is present and not yet
expired, otherwise absent. -/
def cacheGet {alpha : Type} (c : Cache alpha) (now : Nat) (k : String) : Option alpha :=
  match c.find? (fun e => e.1 == k) with
  | some e => if now < e.2.2 then some e.2.1 else none
  | none => none

/-- NodeCache set with the standard TTL: the entry replaces any previous
entry for the key and expires 3600 seconds after insertion. -/
def cacheSet {alpha : Type} (c : Cache alpha) (now : Nat) (k : String) (v : alpha) : Cache alpha :=
  (k, v, now + 3600) :: c.filter (fun e => e.1 != k)

/-- The catalog result object (src/index.js lines 92-97). -/
structure CatalogResult where
  items : List CatalogItem
  totalPages : Int
  currentPage : Int
  totalItems : Nat
deriving DecidableEq

/-- The values the shared cache stores: catalog results under catalog keys
and content results under content keys. -/
inductive CacheVal where
  | catalogV (r : CatalogResult)
  | contentV (r : ContentResult)
deriving DecidableEq

/-- Shared mutable service state as the route handlers see it: the response
cache plus an instrumentation counter of rendering-gateway invocations
(each newPage/goto sequence performed on a cache miss counts one). -/
structure AppState where
  cache : Cache CacheVal
  gatewayCalls : Nat
deriving DecidableEq

/-- An HTTP response: a 200 JSON body, or a status code with the error
field of the JSON error body. -/
inductive HResp (alpha : Type) where
  | ok (v : alpha)
  | err (status : Nat) (msg : String)
deriving DecidableEq

/-! ## Catalog route handler (src/index.js lines 40-105) -/

/-- The catalog query parameters after the destructuring defaults of line
42 (`page = 1, search = '', type = 'all'`).  The page parameter is modelled
as the natural number it denotes; the claims quantify over valid triples. -/
structure CatalogReq where
  page : Nat
  search : String
  type : String
deriving DecidableEq

/-- Cache key derivation of line 43. -/
def catalogKey (req : CatalogReq) : String :=
  "catalog_" ++ toString req.page ++ "_" ++ req.search ++ "_" ++ req.type

/-- What the browser environment yields for one catalog navigation: a
navigation failure, or the rendered document, given as the container
elements the item selector matches plus the text of the last pagination
page-number element (empty when no such element exists). -/
structure CatalogDoc where
  containers : List ContainerEl
  paginLastText : String
deriving DecidableEq

/-- Environment of one catalog request. -/
inductive CatalogEnv where
  | failure
  | pageDoc (doc : CatalogDoc)
deriving DecidableEq

/-- The pure extraction portion of the catalog route (lines 63-97), run
once the rendered content is in hand. -/
def extractCatalogResult (now : Nat) (cy : Int) (req : CatalogReq)
    (doc : CatalogDoc) : CatalogResult :=
  let items := catalogItems now cy doc.containers
  { items := items
    totalPages := jsOrInt (jsParseIntOpt doc.paginLastText) 1
    currentPage := (req.page : Int)
    totalItems := items.length }

/-- The catalog route handler (lines 40-105) as a state transformer.  The
cache is consulted first (lines 45-46); on a miss the gateway is invoked
(newPage/goto, counted); a navigation failure or a selector-wait timeout
(no container element ever appears, line 60) is caught by the route and
reported as HTTP 500; otherwise the extraction result is cached (line 99)
and returned. -/
def handleCatalog (env : CatalogEnv) (now : Nat) (cy : Int) (st : AppState)
    (req : CatalogReq) : AppState × HResp CacheVal :=
  match cacheGet st.cache now (catalogKey req) with
  | some v => (st, .ok v)
  | none =>
    let st1 : AppState := { st with gatewayCalls := st.gatewayCalls + 1 }
    match env with
    | .failure => (st1, .err 500 "Failed to fetch catalog")
    | .pageDoc doc =>
      if doc.containers.isEmpty then
        (st1, .err 500 "Failed to fetch catalog")
      else
        let result := extractCatalogResult now cy req doc
        ({ st1 with
            cache := cacheSet st1.cache now (catalogKey req) (.catalogV result) },
         .ok (.catalogV result))

/-! ## Content route handler (src/index.js lines 108-186) -/

/-- The content-detail query: the optional link parameter. -/
structure ContentReq where
  link : Option String
deriving DecidableEq

/-- Cache key derivation of line 113. -/
def contentKey (link : String) : String :=
  "content_" ++ base64Encode link

/-- Environment of one content-detail navigation. -/
inductive DetailEnv where
  | failure
  | pageDoc (doc : DetailDoc)
deriving DecidableEq

/-- The content route handler (lines 108-186).  A missing (or empty, hence
falsy) link is rejected with 400 before the cache or gateway is touched;
then cache lookup, gateway on miss, 500 on navigation failure, store and
return on success. -/
def handleContent (env : DetailEnv) (now : Nat) (st : AppState)
    (req : ContentReq) : AppState × HResp CacheVal :=
  match req.link with
  | none => (st, .err 400 "Content link required")
  | some link =>
    if link = "" then (st, .err 400 "Content link required")
    else
      match cacheGet st.cache now (contentKey link) with
      | some v => (st, .ok v)
      | none =>
        let st1 : AppState := { st with gatewayCalls := st.gatewayCalls + 1 }
        match env with
        | .failure => (st1, .err 500 "Failed to extract content details")
        | .pageDoc doc =>
          let result := extractDetail doc
          ({ st1 with
              cache := cacheSet st1.cache now (contentKey link) (.contentV result) },
           .ok (.contentV result))

/-! ## Extract-link route handler (src/index.js lines 189-230) -/

/-- The request body of the extract-link route. -/
structure ExtractReq where
  iframeUrl : Option String
deriving DecidableEq

/-- One anchor element of the loaded player page, as the download-link
selector reads it. -/
structure AnchorEl where
  href : Option String
  hasDownloadAttr : Bool
deriving DecidableEq

/-- Environment of one extract-link navigation: failure, or the URLs of
the network responses observed while loading together with the anchor
elements of the loaded document. -/
inductive ExtractEnv where
  | failure
  | pageLoad (responseUrls : List String) (anchors : List AnchorEl)
deriving DecidableEq

/-- The response body of the extract-link route (lines 221-225);
extractedAt models the timestamp. -/
structure ExtractResult where
  videoUrls : List String
  downloadLinks : List String
  extractedAt : Nat
deriving DecidableEq

/-- The response listener of lines 200-205 keeps the network response URLs
containing one of the three media markers. -/
def responseVideoUrls (urls : List String) : List String :=
  urls.filter (fun u =>
    strIncludes u ".mp4" || strIncludes u ".m3u8" || strIncludes u ".mkv")

/-- The anchor selector of line 214: href contains .mp4 or .mkv, or the
element carries a download attribute. -/
def anchorSelected (a : AnchorEl) : Bool :=
  (match a.href with
   | some h => strIncludes h ".mp4" || strIncludes h ".mkv"
   | none => false) || a.hasDownloadAttr

/-- The download-link loop of lines 213-217: the truthy hrefs of the
selected anchors, verbatim. -/
def downloadLinksOf (anchors : List AnchorEl) : List String :=
  (anchors.filter anchorSelected).filterMap (fun a =>
    match a.href with
    | some h => if h = "" then none else some h
    | none => none)

/-- The extract-link route handler (lines 189-230).  A falsy iframeUrl is
rejected with 400 before the gateway is touched.  Unlike the other two data
routes, nothing here reads or writes the cache. -/
def handleExtractLink (env : ExtractEnv) (now : Nat) (st : AppState)
    (req : ExtractReq) : AppState × HResp ExtractResult :=
  match req.iframeUrl with
  | none => (st, .err 400 "iframe URL required")
  | some u =>
    if u = "" then (st, .err 400 "iframe URL required")
    else
      let st1 : AppState := { st with gatewayCalls := st.gatewayCalls + 1 }
      match env with
      | .failure => (st1, .err 500 "Failed to extract download link")
      | .pageLoad responseUrls anchors =>
        (st1, .ok { videoUrls := responseVideoUrls responseUrls,
                    downloadLinks := downloadLinksOf anchors,
                    extractedAt := now })

/-! ## Browser initialization (src/index.js lines 19-32)

An async JavaScript function runs atomically between `await` points.  In
initBrowser the null check of line 22 and the launch-and-assign of lines
23-29 are separated by two awaits, so two concurrent callers can interleave
between them.  The machine below gives each of two callers one atomic step
per such block; browser handles are numbered by launch order and the
launches field counts completed puppeteer.launch calls, i.e. browser
processes created. -/

/-- Control point of one caller of initBrowser. -/
inductive CallerPc where
  /-- About to evaluate the null check of line 22. -/
  | ready
  /-- Passed the check with browser still null; suspended at the awaits of
  lines 23-24, launch not yet completed. -/
  | launching
  /-- Returned from initBrowser holding handle h (line 31). -/
  | returned (h : Nat)
deriving DecidableEq

/-- Shared module state plus the two callers. -/
structure InitState where
  /-- The module-level browser variable of line 19. -/
  browser : Option Nat
  /-- Number of browser processes launched so far. -/
  launches : Nat
  pcA : CallerPc
  pcB : CallerPc
deriving DecidableEq

/-- Identifier of the caller scheduled next. -/
inductive CallerId where
  | A
  | B
deriving DecidableEq

/-- One atomic step of a caller: at ready, the null check routes either to
an immediate return of the existing handle or into the launch branch; at
launching, the launch completes, creating a fresh process and assigning the
module variable; a returned caller is done. -/
def stepCaller (pc : CallerPc) (s : InitState) : CallerPc × InitState :=
  match pc with
  | .ready =>
    match s.browser with
    | some h => (.returned h, s)
    | none => (.launching, s)
  | .launching =>
    let h := s.launches
    (.returned h, { s with browser := some h, launches := s.launches + 1 })
  | .returned h => (.returned h, s)

/-- Scheduler step: run one atomic step of the named caller. -/
def stepInit (s : InitState) : CallerId → InitState
  | .A => let r := stepCaller s.pcA s; { r.2 with pcA := r.1 }
  | .B => let r := stepCaller s.pcB s; { r.2 with pcB := r.1 }

/-- Run a schedule, i.e. an interleaving of the two callers. -/
def runInit (s : InitState) : List CallerId → InitState
  | [] => s
  | c :: cs => runInit (stepInit s c) cs

/-- Both callers arrive before any initialization has happened. -/
def initStart : InitState :=
  { browser := none, launches := 0, pcA := .ready, pcB := .ready }

/-! ## Concrete fixtures used by witnesses and counterexamples -/

/-- A container with truthy title and link, a parseable year and no genre
elements. -/
def elNoGenre : ContainerEl :=
  { titleText := "Alpha", posterSrc := some "https://filmax.to/p.jpg",
    posterDataSrc := none, linkHref := some "/movie/alpha", yearText := "2001",
    ratingText := "", isSeriesItem := false, synopsisText := "",
    genreTexts := [] }

/-- A container whose year text is non-empty but not parseable as an
integer. -/
def elBadYear : ContainerEl :=
  { titleText := "Beta", posterSrc := none, posterDataSrc := none,
    linkHref := some "/movie/beta", yearText := "unknown", ratingText := "",
    isSeriesItem := false, synopsisText := "A plot", genreTexts := ["Drama"] }

/-- A container with an empty year text. -/
def elEmptyYear : ContainerEl :=
  { titleText := "Gamma", posterSrc := none, posterDataSrc := none,
    linkHref := some "/series/gamma", yearText := "", ratingText := "",
    isSeriesItem := true, synopsisText := "", genreTexts := ["Action"] }

/-- A container whose title selector produced empty text: the guard must
drop it. -/
def elNoTitle : ContainerEl :=
  { titleText := "", posterSrc := none, posterDataSrc := none,
    linkHref := some "/movie/untitled", yearText := "", ratingText := "",
    isSeriesItem := false, synopsisText := "", genreTexts := [] }

/-- The default catalog request (page 1, empty search, type all). -/
def req0 : CatalogReq := { page := 1, search := "", type := "all" }

/-- Fresh service state: empty cache, no gateway calls yet. -/
def st0 : AppState := { cache := [], gatewayCalls := 0 }

/-- A rendered page on which the container selector matches nothing. -/
def emptyDoc : CatalogDoc := { containers := [], paginLastText := "" }

/-- A rendered page with one container and a pagination indicator of 3. -/
def docW : CatalogDoc := { containers := [elNoGenre], paginLastText := "3" }

/-- The result the catalog pipeline extracts from `docW` at time 0 with
current year 2026. -/
def rW : CatalogResult :=
  { items := [mkCatalogItem 0 2026 0 elNoGenre "/movie/alpha"],
    totalPages := 3, currentPage := 1, totalItems := 1 }

/-- The state after a successful first catalog request on `docW`: the
result cached at time 0 under the default key, one gateway call. -/
def stW : AppState :=
  { cache := [(catalogKey req0, .catalogV rW, 3600)], gatewayCalls := 1 }

/-- An extract-link request with a present iframe URL. -/
def exReq : ExtractReq := { iframeUrl := some "https://streamtape.example/e/x" }

/-- An extract-link page load observing one media response URL and no
anchors. -/
def exEnv : ExtractEnv := .pageLoad ["https://cdn.example/v.mp4"] []

/-- A detail page whose only iframe source contains the upstream provider
substring and nothing else of interest. -/
def upstreamDoc : DetailDoc :=
  { titleText := "T", synopsisText := "", posterSrc := none, yearText := "",
    durationText := "", genreTexts := [], ratingText := "",
    iframeSrcs := [some "https://upstream.example/e/abc"], scriptTexts := [] }

/-! ## Helper lemmas -/

/-- An entry just stored is returned by a lookup at any time within its
3600 second TTL. -/
theorem cacheGet_cacheSet_self {alpha : Type} (c : Cache alpha) (t t2 : Nat)
    (k : String) (v : alpha) (h : t2 < t + 3600) :
    cacheGet (cacheSet c t k v) t2 k = some v := by
  unfold cacheGet cacheSet
  simp [List.find?, h]

/-- A key absent (or expired) at time `t` stays absent at any later time. -/
theorem cacheGet_none_mono {alpha : Type} (c : Cache alpha) (t t2 : Nat)
    (k : String) (h : cacheGet c t k = none) (ht : t ≤ t2) :
    cacheGet c t2 k = none := by
  unfold cacheGet at h ⊢
  cases hf : c.find? (fun e => e.1 == k) with
  | none => simp [hf]
  | some e =>
    simp only [hf] at h ⊢
    by_cases hlt : t < e.2.2
    · rw [if_pos hlt] at h
      exact absurd h (by simp)
    · rw [if_neg (show ¬ t2 < e.2.2 by omega)]

/-- Appending to the fixed site origin never yields the empty string. -/
theorem site_append_ne_empty (l : String) : "https://filmax.to" ++ l ≠ "" := by
  intro h
  have hlen := congrArg String.length h
  rw [String.length_append] at hlen
  have h17 : "https://filmax.to".length = 17 := rfl
  have h0 : "".length = 0 := rfl
  rw [h17, h0] at hlen
  omega

/-- A cache hit short-circuits the catalog handler: the stored value is
returned verbatim and the state (hence the gateway counter) is untouched. -/
theorem handleCatalog_hit (env : CatalogEnv) (now : Nat) (cy : Int)
    (st : AppState) (req : CatalogReq) (v : CacheVal)
    (h : cacheGet st.cache now (catalogKey req) = some v) :
    handleCatalog env now cy st req = (st, .ok v) := by
  unfold handleCatalog
  rw [h]

/-- On a cache miss the catalog handler invokes the rendering gateway
exactly once, whatever the outcome. -/
theorem handleCatalog_miss_gateway (env : CatalogEnv) (now : Nat) (cy : Int)
    (st : AppState) (req : CatalogReq)
    (h : cacheGet st.cache now (catalogKey req) = none) :
    (handleCatalog env now cy st req).1.gatewayCalls = st.gatewayCalls + 1 := by
  unfold handleCatalog
  rw [h]
  cases env with
  | failure => rfl
  | pageDoc doc =>
    by_cases he : doc.containers.isEmpty <;> simp [he]

/-- On a miss the catalog handler can fail in two ways, navigation failure
or the selector wait timing out on a page with no container element; both
are reported as HTTP 500 with the cache left untouched. -/
theorem handleCatalog_fail (env : CatalogEnv) (now : Nat) (cy : Int)
    (st : AppState) (req : CatalogReq)
    (h : cacheGet st.cache now (catalogKey req) = none)
    (hfail : env = .failure ∨ ∃ doc, env = .pageDoc doc ∧ doc.containers = []) :
    handleCatalog env now cy st req =
      ({ st with gatewayCalls := st.gatewayCalls + 1 },
       .err 500 "Failed to fetch catalog") := by
  unfold handleCatalog
  rw [h]
  rcases hfail with hf | ⟨doc, hd, hc⟩
  · rw [hf]
  · rw [hd]
    simp [hc]

/-- On a miss with a rendered page holding at least one container element,
the catalog handler stores the extraction result and returns it. -/
theorem handleCatalog_miss_success (doc : CatalogDoc) (now : Nat) (cy : Int)
    (st : AppState) (req : CatalogReq)
    (h : cacheGet st.cache now (catalogKey req) = none)
    (hne : doc.containers.isEmpty = false) :
    handleCatalog (.pageDoc doc) now cy st req =
      ({ cache := cacheSet st.cache now (catalogKey req)
                    (.catalogV (extractCatalogResult now cy req doc)),
         gatewayCalls := st.gatewayCalls + 1 },
       .ok (.catalogV (extractCatalogResult now cy req doc))) := by
  unfold handleCatalog
  rw [h]
  simp [hne]

/-- A cache hit short-circuits the content handler. -/
theorem handleContent_hit (env : DetailEnv) (now : Nat) (st : AppState)
    (link : String) (v : CacheVal) (hl : link ≠ "")
    (h : cacheGet st.cache now (contentKey link) = some v) :
    handleContent env now st { link := some link } = (st, .ok v) := by
  simp [handleContent, hl, h]

/-- On a cache miss the content handler invokes the gateway exactly once. -/
theorem handleContent_miss_gateway (env : DetailEnv) (now : Nat)
    (st : AppState) (link : String) (hl : link ≠ "")
    (h : cacheGet st.cache now (contentKey link) = none) :
    (handleContent env now st { link := some link }).1.gatewayCalls =
      st.gatewayCalls + 1 := by
  cases env <;> simp [handleContent, hl, h]

/-- A navigation failure on a content miss yields HTTP 500 with the cache
left untouched. -/
theorem handleContent_fail (now : Nat) (st : AppState) (link : String)
    (hl : link ≠ "") (h : cacheGet st.cache now (contentKey link) = none) :
    handleContent .failure now st { link := some link } =
      ({ st with gatewayCalls := st.gatewayCalls + 1 },
       .err 500 "Failed to extract content details") := by
  simp [handleContent, hl, h]

/-- On a miss with a rendered page the content handler stores the
extraction result and returns it. -/
theorem handleContent_miss_success (doc : DetailDoc) (now : Nat)
    (st : AppState) (link : String) (hl : link ≠ "")
    (h : cacheGet st.cache now (contentKey link) = none) :
    handleContent (.pageDoc doc) now st { link := some link } =
      ({ cache := cacheSet st.cache now (contentKey link)
                    (.contentV (extractDetail doc)),
         gatewayCalls := st.gatewayCalls + 1 },
       .ok (.contentV (extractDetail doc))) := by
  simp [handleContent, hl, h]

/-- The extract-link handler never reads or writes the cache. -/
theorem handleExtractLink_cache_const (env : ExtractEnv) (now : Nat)
    (st : AppState) (req : ExtractReq) :
    (handleExtractLink env now st req).1.cache = st.cache := by
  unfold handleExtractLink
  rcases req with ⟨u⟩
  cases u with
  | none => rfl
  | some s =>
    by_cases hs : s = ""
    · simp [hs]
    · cases env <;> simp [hs]

/-- The guard of src/index.js line 75: the trimmed title and the href must
both be truthy for the container to produce an item. -/
def containerKept (el : ContainerEl) : Bool :=
  match el.linkHref with
  | some l => el.titleText != "" && l != ""
  | none => false

/-- Every produced catalog item carries the non-empty title and a non-empty
resolved link of its container, and exactly the containers passing the
guard produce items. -/
theorem catalogItemsAux_spec (now : Nat) (cy : Int) :
    ∀ (els : List ContainerEl) (i : Nat),
      (∀ it ∈ catalogItemsAux now cy i els, it.title ≠ "" ∧ it.link ≠ "") ∧
      (catalogItemsAux now cy i els).length = (els.filter containerKept).length := by
  intro els
  induction els with
  | nil => intro i; simp [catalogItemsAux]
  | cons el rest ih =>
    intro i
    cases hl : el.linkHref with
    | none =>
      have hred : catalogItemsAux now cy i (el :: rest) =
          catalogItemsAux now cy (i + 1) rest := by
        simp only [catalogItemsAux]
        rw [hl]
      have hk : containerKept el = false := by
        unfold containerKept
        rw [hl]
      rw [hred]
      refine ⟨(ih (i + 1)).1, ?_⟩
      simp [List.filter_cons, hk, (ih (i + 1)).2]
    | some l =>
      have hred : catalogItemsAux now cy i (el :: rest) =
          (if (el.titleText != "") && (l != "") then
            mkCatalogItem now cy i el l :: catalogItemsAux now cy (i + 1) rest
          else catalogItemsAux now cy (i + 1) rest) := by
        simp only [catalogItemsAux]
        rw [hl]
      have hk : containerKept el = ((el.titleText != "") && (l != "")) := by
        unfold containerKept
        rw [hl]
      rw [hred]
      by_cases hg : ((el.titleText != "") && (l != "")) = true
      · rw [if_pos hg]
        have hgp := hg
        rw [Bool.and_eq_true, bne_iff_ne, bne_iff_ne] at hgp
        constructor
        · intro it hit
          rcases List.mem_cons.mp hit with hh | ht
          · subst hh
            refine ⟨hgp.1, ?_⟩
            show (if strStartsWith l "http" then l else "https://filmax.to" ++ l) ≠ ""
            by_cases hsw : strStartsWith l "http"
            · rw [if_pos hsw]; exact hgp.2
            · rw [if_neg hsw]; exact site_append_ne_empty l
          · exact (ih (i + 1)).1 it ht
        · simp [List.filter_cons, hk, hg, (ih (i + 1)).2]
      · rw [if_neg hg]
        have hkf : containerKept el = false := by
          rw [hk]
          simpa using hg
        refine ⟨(ih (i + 1)).1, ?_⟩
        simp [List.filter_cons, hkf, (ih (i + 1)).2]

/-! ## Claim theorems -/

/-- C1.  The claim states that concurrent callers of browser
initialization launch at most one browser process and all receive the same
handle.  The code has no single-flight guard: under the schedule A B A B,
both callers pass the null check of line 22 before either launch completes,
so two browser processes are launched and the callers end up holding
different handles.  This refutes the claim on the code; the spec
(single-flight required) states the evident intent, so this is a code
defect. -/
theorem c1_concurrent_init_launches_two_processes :
    (runInit initStart [.A, .B, .A, .B]).launches = 2 ∧
    (runInit initStart [.A, .B, .A, .B]).pcA = .returned 0 ∧
    (runInit initStart [.A, .B, .A, .B]).pcB = .returned 1 :=
  ⟨rfl, rfl, rfl⟩

/-- C2 counterexample.  The claim states that every data-producing
endpoint, including extract-link, follows the cache protocol.  Running the
same extract-link request twice invokes the gateway both times and leaves
the cache empty: the extract-link handler has no cache lookup and no cache
store, so the protocol (hit returns stored value, miss stores) fails for
it at this concrete input. -/
theorem c2_extract_link_bypasses_cache :
    (handleExtractLink exEnv 10 (handleExtractLink exEnv 0 st0 exReq).1 exReq).1.gatewayCalls = 2 ∧
    (handleExtractLink exEnv 10 (handleExtractLink exEnv 0 st0 exReq).1 exReq).1.cache = [] :=
  ⟨rfl, rfl⟩

/-- C2 amended.  The catalog and content-detail endpoints follow the cache
protocol: a hit returns the stored value verbatim without touching state, a
miss invokes the gateway exactly once, and a successful miss stores the
result retrievably under the derived key.  The extract-link endpoint does
not participate: it never reads or writes the cache. -/
theorem c2_cache_protocol_amended :
    (∀ (env : CatalogEnv) (now : Nat) (cy : Int) (st : AppState)
       (req : CatalogReq) (v : CacheVal),
      cacheGet st.cache now (catalogKey req) = some v →
      handleCatalog env now cy st req = (st, .ok v)) ∧
    (∀ (env : CatalogEnv) (now : Nat) (cy : Int) (st : AppState)
       (req : CatalogReq),
      cacheGet st.cache now (catalogKey req) = none →
      (handleCatalog env now cy st req).1.gatewayCalls = st.gatewayCalls + 1) ∧
    (∀ (env : CatalogEnv) (now : Nat) (cy : Int) (st : AppState)
       (req : CatalogReq) (r : CacheVal),
      cacheGet st.cache now (catalogKey req) = none →
      (handleCatalog env now cy st req).2 = .ok r →
      cacheGet (handleCatalog env now cy st req).1.cache now (catalogKey req) = some r) ∧
    (∀ (env : DetailEnv) (now : Nat) (st : AppState) (link : String)
       (v : CacheVal),
      link ≠ "" →
      cacheGet st.cache now (contentKey link) = some v →
      handleContent env now st { link := some link } = (st, .ok v)) ∧
    (∀ (env : DetailEnv) (now : Nat) (st : AppState) (link : String),
      link ≠ "" →
      cacheGet st.cache now (contentKey link) = none →
      (handleContent env now st { link := some link }).1.gatewayCalls =
        st.gatewayCalls + 1) ∧
    (∀ (env : DetailEnv) (now : Nat) (st : AppState) (link : String)
       (r : CacheVal),
      link ≠ "" →
      cacheGet st.cache now (contentKey link) = none →
      (handleContent env now st { link := some link }).2 = .ok r →
      cacheGet (handleContent env now st { link := some link }).1.cache now
        (contentKey link) = some r) ∧
    (∀ (env : ExtractEnv) (now : Nat) (st : AppState) (req : ExtractReq),
      (handleExtractLink env now st req).1.cache = st.cache) := by
  refine ⟨?_, ?_, ?_, ?_, ?_, ?_, ?_⟩
  · intro env now cy st req v h
    exact handleCatalog_hit env now cy st req v h
  · intro env now cy st req h
    exact handleCatalog_miss_gateway env now cy st req h
  · intro env now cy st req r h hok
    cases env with
    | failure =>
      rw [handleCatalog_fail _ now cy st req h (Or.inl rfl)] at hok
      exact absurd hok (by simp)
    | pageDoc doc =>
      cases he : doc.containers.isEmpty with
      | true =>
        rw [handleCatalog_fail _ now cy st req h
              (Or.inr ⟨doc, rfl, List.isEmpty_iff.mp he⟩)] at hok
        exact absurd hok (by simp)
      | false =>
        rw [handleCatalog_miss_success doc now cy st req h he] at hok ⊢
        injection hok with hr
        subst hr
        exact cacheGet_cacheSet_self _ now now _ _ (by omega)
  · intro env now st link v hl h
    exact handleContent_hit env now st link v hl h
  · intro env now st link hl h
    exact handleContent_miss_gateway env now st link hl h
  · intro env now st link r hl h hok
    cases env with
    | failure =>
      rw [handleContent_fail now st link hl h] at hok
      exact absurd hok (by simp)
    | pageDoc doc =>
      rw [handleContent_miss_success doc now st link hl h] at hok ⊢
      injection hok with hr
      subst hr
      exact cacheGet_cacheSet_self _ now now _ _ (by omega)
  · intro env now st req
    exact handleExtractLink_cache_const env now st req

/-- C2 amended witness: a concrete catalog cache hit returns the stored
value with state untouched, and a concrete extract-link call leaves the
cache exactly as it was. -/
theorem c2_cache_protocol_amended_witness :
    handleCatalog .failure 5 2026 stW req0 = (stW, .ok (.catalogV rW)) ∧
    (handleExtractLink exEnv 0 st0 exReq).1.cache = st0.cache := by
  constructor
  · exact c2_cache_protocol_amended.1 .failure 5 2026 stW req0 (.catalogV rW) (by decide)
  · exact c2_cache_protocol_amended.2.2.2.2.2.2 exEnv 0 st0 exReq

/-- C3.  The claim states that a catalog container with no genre matches
produces the single-element placeholder list and never an empty list.  On
the code the pushed genres expression is an array-valued logical-or whose
left operand, an array, is always truthy in JavaScript, so a container
with no genre elements yields an empty genres list and the placeholder
fallback is dead code (the sibling detail handler tests length instead,
showing the intent). -/
theorem c3_missing_genres_yield_empty_list :
    (catalogItems 7 2026 [elNoGenre]).map CatalogItem.genres = [[]] ∧
    (catalogItems 7 2026 [elNoGenre]).map CatalogItem.genres ≠ [["Unknown"]] :=
  ⟨rfl, by decide⟩

/-- C4 counterexample.  The claim states that a catalog request whose
rendered page has zero container-matching elements returns HTTP 200 with
empty items and totalPages 1.  On the code the selector wait of line 60
times out on such a page, the route catches the error, and the response is
HTTP 500, not the empty-defaults 200. -/
theorem c4_zero_container_page_returns_500 :
    (handleCatalog (.pageDoc emptyDoc) 0 2026 st0 req0).2 =
      .err 500 "Failed to fetch catalog" ∧
    (handleCatalog (.pageDoc emptyDoc) 0 2026 st0 req0).2 ≠
      .ok (.catalogV { items := [], totalPages := 1, currentPage := 1,
                       totalItems := 0 }) :=
  ⟨rfl, by decide⟩

/-- C4 amended.  A catalog request whose rendered page contains zero
container-matching elements returns HTTP 500 (the selector wait times
out) with the cache untouched; the extraction logic itself, applied to
such a page, yields an empty item sequence, and totalPages defaults to 1
when the pagination indicator is absent or unparseable. -/
theorem c4_zero_containers_amended (now : Nat) (cy : Int) (st : AppState)
    (req : CatalogReq) (doc : CatalogDoc)
    (hmiss : cacheGet st.cache now (catalogKey req) = none)
    (hempty : doc.containers = []) :
    handleCatalog (.pageDoc doc) now cy st req =
      ({ st with gatewayCalls := st.gatewayCalls + 1 },
       .err 500 "Failed to fetch catalog") ∧
    (extractCatalogResult now cy req doc).items = [] ∧
    (jsParseIntOpt doc.paginLastText = none →
      (extractCatalogResult now cy req doc).totalPages = 1) := by
  refine ⟨handleCatalog_fail _ now cy st req hmiss (Or.inr ⟨doc, rfl, hempty⟩), ?_, ?_⟩
  · simp [extractCatalogResult, catalogItems, hempty, catalogItemsAux]
  · intro hp
    simp [extractCatalogResult, jsOrInt, hp]

/-- C4 amended witness at the concrete empty page. -/
theorem c4_zero_containers_amended_witness :
    handleCatalog (.pageDoc emptyDoc) 0 2026 st0 req0 =
      ({ st0 with gatewayCalls := 1 }, .err 500 "Failed to fetch catalog") ∧
    (extractCatalogResult 0 2026 req0 emptyDoc).items = [] ∧
    (extractCatalogResult 0 2026 req0 emptyDoc).totalPages = 1 := by
  have h := c4_zero_containers_amended 0 2026 st0 req0 emptyDoc rfl rfl
  exact ⟨h.1, h.2.1, h.2.2 rfl⟩

/-- C5.  The claim states that the detail extractor collects every iframe
whose source contains any of the five known provider substrings, including
upstream.  On the code the iframe guard of line 136 tests only four
substrings, so an iframe whose source contains only the upstream substring
is skipped entirely, even though the label mapper extractProviderName has
a dedicated (and here unreachable) UpStream branch, showing the intended
fifth provider. -/
theorem c5_upstream_iframe_not_collected :
    iframeLinks [some "https://upstream.example/e/abc"] = [] ∧
    extractProviderName "https://upstream.example/e/abc" = "UpStream" ∧
    (extractDetail upstreamDoc).links = [] := by
  refine ⟨by decide, by decide, by decide⟩

/-- C6 counterexample.  The claim states that an unparseable year text,
including non-numeric non-empty text, defaults the item year to the
current calendar year.  On the code only an empty year text takes the
current-year branch; non-empty unparseable text goes through parseInt and
yields NaN (serialized as null), not the current year. -/
theorem c6_unparseable_year_not_current_year :
    (catalogItems 0 2026 [elBadYear]).map CatalogItem.year = [none] ∧
    (catalogItems 0 2026 [elBadYear]).map CatalogItem.year ≠ [some (2026 : Int)] :=
  ⟨rfl, by decide⟩

/-- C6 amended.  The item year is the current year exactly when the
scraped year text is empty; non-empty unparseable text yields NaN (no
year), and otherwise the parsed leading integer is used. -/
theorem c6_year_defaults_amended (now : Nat) (cy : Int) (i : Nat)
    (el : ContainerEl) (link : String) :
    (el.yearText = "" → (mkCatalogItem now cy i el link).year = some cy) ∧
    (el.yearText ≠ "" → jsParseIntOpt el.yearText = none →
      (mkCatalogItem now cy i el link).year = none) ∧
    (∀ n : Int, el.yearText ≠ "" → jsParseIntOpt el.yearText = some n →
      (mkCatalogItem now cy i el link).year = some n) := by
  refine ⟨fun h => ?_, fun h hp => ?_, fun n h hp => ?_⟩
  · simp [mkCatalogItem, h]
  · simp [mkCatalogItem, h, hp]
  · simp [mkCatalogItem, h, hp]

/-- C6 amended witness exercising all three cases on concrete containers. -/
theorem c6_year_defaults_amended_witness :
    (mkCatalogItem 0 2026 0 elEmptyYear "/series/gamma").year = some 2026 ∧
    (mkCatalogItem 0 2026 0 elBadYear "/movie/beta").year = none ∧
    (mkCatalogItem 0 2026 0 elNoGenre "/movie/alpha").year = some 2001 :=
  ⟨(c6_year_defaults_amended 0 2026 0 elEmptyYear "/series/gamma").1 rfl,
   (c6_year_defaults_amended 0 2026 0 elBadYear "/movie/beta").2.1 (by decide) rfl,
   (c6_year_defaults_amended 0 2026 0 elNoGenre "/movie/alpha").2.2 2001 (by decide) rfl⟩

/-- C7.  A catalog request that misses the cache and succeeds stores its
result; the same request issued again at any time strictly within the
3600 second TTL window returns exactly the stored value and leaves the
state, hence the gateway invocation count, untouched — whatever the
second environment is, the gateway is not consulted. -/
theorem c7_second_request_hits_cache (env env2 : CatalogEnv) (t1 t2 : Nat)
    (cy cy2 : Int) (st st2 : AppState) (req : CatalogReq) (r : CacheVal)
    (hmiss : cacheGet st.cache t1 (catalogKey req) = none)
    (h1 : handleCatalog env t1 cy st req = (st2, .ok r))
    (ht : t2 < t1 + 3600) :
    handleCatalog env2 t2 cy2 st2 req = (st2, .ok r) := by
  cases env with
  | failure =>
    rw [handleCatalog_fail _ t1 cy st req hmiss (Or.inl rfl)] at h1
    have := congrArg Prod.snd h1
    exact absurd this (by simp)
  | pageDoc doc =>
    cases he : doc.containers.isEmpty with
    | true =>
      rw [handleCatalog_fail _ t1 cy st req hmiss
            (Or.inr ⟨doc, rfl, List.isEmpty_iff.mp he⟩)] at h1
      have := congrArg Prod.snd h1
      exact absurd this (by simp)
    | false =>
      rw [handleCatalog_miss_success doc t1 cy st req hmiss he] at h1
      have hst := congrArg Prod.fst h1
      have hr := congrArg Prod.snd h1
      simp only at hst hr
      injection hr with hr2
      subst hr2
      subst hst
      exact handleCatalog_hit env2 t2 cy2 _ req _
        (cacheGet_cacheSet_self _ t1 t2 _ _ ht)

/-- C7 witness: a concrete first request on `docW` at time 0, the same
request again at time 100 against a failing environment still answers from
the cache. -/
theorem c7_second_request_hits_cache_witness :
    handleCatalog .failure 100 2030 stW req0 = (stW, .ok (.catalogV rW)) :=
  c7_second_request_hits_cache (.pageDoc docW) .failure 0 100 2026 2030
    st0 stW req0 (.catalogV rW) (by decide) (by decide) (by decide)

/-- C8.  A content-detail request without the link parameter and an
extract-link request without the iframeUrl body field are each rejected
with HTTP 400 and an error message, with the state (hence the gateway)
untouched. -/
theorem c8_missing_required_params_return_400 (env : DetailEnv)
    (env2 : ExtractEnv) (now now2 : Nat) (st st2 : AppState) :
    handleContent env now st { link := none } =
      (st, .err 400 "Content link required") ∧
    handleExtractLink env2 now2 st2 { iframeUrl := none } =
      (st2, .err 400 "iframe URL required") :=
  ⟨rfl, rfl⟩

/-- C9.  When a catalog or content-detail scrape pipeline step fails, the
route answers HTTP 500 and the cache is left unchanged (the cache write
happens only after successful extraction), so an identical later request
misses again and re-invokes the gateway. -/
theorem c9_failure_no_cache_write :
    (∀ (env : CatalogEnv) (now : Nat) (cy : Int) (st : AppState)
       (req : CatalogReq),
      cacheGet st.cache now (catalogKey req) = none →
      (env = .failure ∨ ∃ doc, env = .pageDoc doc ∧ doc.containers = []) →
      handleCatalog env now cy st req =
        ({ st with gatewayCalls := st.gatewayCalls + 1 },
         .err 500 "Failed to fetch catalog")) ∧
    (∀ (env : CatalogEnv) (now t2 : Nat) (cy cy2 : Int) (st : AppState)
       (req : CatalogReq) (env2 : CatalogEnv),
      cacheGet st.cache now (catalogKey req) = none →
      (env = .failure ∨ ∃ doc, env = .pageDoc doc ∧ doc.containers = []) →
      now ≤ t2 →
      (handleCatalog env2 t2 cy2 (handleCatalog env now cy st req).1 req).1.gatewayCalls =
        st.gatewayCalls + 2) ∧
    (∀ (now : Nat) (st : AppState) (link : String),
      link ≠ "" → cacheGet st.cache now (contentKey link) = none →
      handleContent .failure now st { link := some link } =
        ({ st with gatewayCalls := st.gatewayCalls + 1 },
         .err 500 "Failed to extract content details")) ∧
    (∀ (now t2 : Nat) (st : AppState) (link : String) (env2 : DetailEnv),
      link ≠ "" → cacheGet st.cache now (contentKey link) = none → now ≤ t2 →
      (handleContent env2 t2
          (handleContent .failure now st { link := some link }).1
          { link := some link }).1.gatewayCalls = st.gatewayCalls + 2) := by
  refine ⟨?_, ?_, ?_, ?_⟩
  · intro env now cy st req h hfail
    exact handleCatalog_fail env now cy st req h hfail
  · intro env now t2 cy cy2 st req env2 h hfail ht
    rw [handleCatalog_fail env now cy st req h hfail]
    have h2 : cacheGet ({ st with gatewayCalls := st.gatewayCalls + 1 } : AppState).cache
        t2 (catalogKey req) = none :=
      cacheGet_none_mono _ now t2 _ h ht
    rw [handleCatalog_miss_gateway env2 t2 cy2 _ req h2]
  · intro now st link hl h
    exact handleContent_fail now st link hl h
  · intro now t2 st link env2 hl h ht
    rw [handleContent_fail now st link hl h]
    have h2 : cacheGet ({ st with gatewayCalls := st.gatewayCalls + 1 } : AppState).cache
        t2 (contentKey link) = none :=
      cacheGet_none_mono _ now t2 _ h ht
    rw [handleContent_miss_gateway env2 t2 _ link hl h2]

/-- C9 witness: a concrete failing catalog request answers 500 leaving the
cache empty, and the identical request afterwards invokes the gateway
again. -/
theorem c9_failure_no_cache_write_witness :
    handleCatalog .failure 0 2026 st0 req0 =
      ({ st0 with gatewayCalls := 1 }, .err 500 "Failed to fetch catalog") ∧
    (handleCatalog (.pageDoc docW) 50 2026
        (handleCatalog .failure 0 2026 st0 req0).1 req0).1.gatewayCalls = 2 := by
  constructor
  · exact c9_failure_no_cache_write.1 .failure 0 2026 st0 req0 rfl (Or.inl rfl)
  · exact c9_failure_no_cache_write.2.1 .failure 0 50 2026 2026 st0 req0
      (.pageDoc docW) rfl (Or.inl rfl) (by omega)

/-- C10.  Every catalog item produced by the extraction loop has a
non-empty title and a non-empty link, and exactly the containers whose
title and href are truthy contribute an item — the rest are omitted
entirely. -/
theorem c10_kept_items_have_title_and_link (now : Nat) (cy : Int)
    (els : List ContainerEl) :
    (∀ it ∈ catalogItems now cy els, it.title ≠ "" ∧ it.link ≠ "") ∧
    (catalogItems now cy els).length = (els.filter containerKept).length :=
  catalogItemsAux_spec now cy els 0

/-- C10 witness: on a concrete two-container page with one empty-title
container, the produced item has non-empty title and link and only the
guarded container contributes. -/
theorem c10_kept_items_have_title_and_link_witness :
    ((mkCatalogItem 0 2026 0 elNoGenre "/movie/alpha").title ≠ "" ∧
     (mkCatalogItem 0 2026 0 elNoGenre "/movie/alpha").link ≠ "") ∧
    (catalogItems 0 2026 [elNoGenre, elNoTitle]).length =
      ([elNoGenre, elNoTitle].filter containerKept).length := by
  refine ⟨(c10_kept_items_have_title_and_link 0 2026 [elNoGenre, elNoTitle]).1 _ ?_,
          (c10_kept_items_have_title_and_link 0 2026 [elNoGenre, elNoTitle]).2⟩
  decide
